import Mathlib

/-!
# Verification of `protobuf/src/timestamp.rs`

Shallow embedding of the `SystemTime` ↔ `Timestamp` conversion core of the
`rust-protobuf` repository (file `src/protobuf/src/timestamp.rs`), and proofs
of the specification's claims about it.

Modelling choices:

* A `SystemTime` instant is modelled as an `Int`: its signed offset from the
  Unix epoch in nanoseconds.  The Unix platform clock (`timespec` with `i64`
  seconds and a nanosecond fraction in `[0, 10^9)`) represents exactly the
  offsets in `[-(2^63) * 10^9, 2^63 * 10^9 - 1]`; claims quantified over
  "representable" instants carry that range as a hypothesis.
* A Rust `Duration` (a non-negative span, `u64` whole seconds plus a
  sub-second nanosecond remainder) is modelled as a `Nat`: its total length
  in nanoseconds.  `Duration::as_secs` is division by `10^9`,
  `Duration::subsec_nanos` is the remainder.
* Machine-integer casts (`as i64`, `as u64`, `as i32`) are modelled by
  explicit reinterpretation functions on `Int`/`Nat` with `% 2^64` where the
  width matters; arithmetic overflow of `i64` operations is modelled with
  wrapping (two's-complement) semantics, which is what the compiled code
  does when overflow checks are disabled.
* The one panicking operation the conversions use on in-range data is
  `Duration - Duration`, which panics on underflow; the decoder is therefore
  embedded as an `Option`-valued function, `none` marking that panic.
-/

/-- 2^63 as a `Nat` numeral, the first `u64` value outside the `i64` range. -/
def twoPow63 : Nat := 9223372036854775808

/-- 2^64 as a `Nat` numeral, the number of `u64` (and `i64`) bit patterns. -/
def twoPow64 : Nat := 18446744073709551616

/-- Reinterpret a `u64` value (a `Nat` below `2^64`) as an `i64`
    (the Rust cast `u64_value as i64`). -/
def i64OfU64 (n : Nat) : Int :=
  if n < twoPow63 then (n : Int) else (n : Int) - (twoPow64 : Int)

/-- Reinterpret an `i64` value as a `u64` (the Rust cast `i64_value as u64`). -/
def u64OfI64 (n : Int) : Nat := (n % (twoPow64 : Int)).toNat

/-- Sign-extend an `i32` value and reinterpret it as a `u64`
    (the Rust cast `i32_value as u64`). -/
def u64OfI32 (n : Int) : Nat := (n % (twoPow64 : Int)).toNat

/-- Wrap an exact integer into the `i64` range, i.e. the value an `i64`
    arithmetic expression evaluates to under two's-complement wrapping. -/
def i64Wrap (n : Int) : Int :=
  (n + (twoPow63 : Int)) % (twoPow64 : Int) - (twoPow63 : Int)

/-- `UnknownFields` of the framework: per-field unknown wire data.
    The conversion core only ever uses its empty value `INIT`. -/
structure UnknownFields where
  fields : List (Nat × List Nat)
deriving DecidableEq, Repr

/-- `UnknownFields::INIT`: the empty unknown-field storage. -/
def UnknownFields.INIT : UnknownFields := ⟨[]⟩

/-- `CachedSize` of the framework: the cached encoded size of a message.
    The conversion core only ever uses its zero value `INIT`. -/
structure CachedSize where
  size : Nat
deriving DecidableEq, Repr

/-- `CachedSize::INIT`: the zero cached size. -/
def CachedSize.INIT : CachedSize := ⟨0⟩

/-- The well-known `Timestamp` message: `seconds` is an `i64`, `nanos` an
    `i32`, plus the two framework bookkeeping fields. -/
structure Timestamp where
  seconds : Int
  nanos : Int
  unknown_fields : UnknownFields
  cached_size : CachedSize
deriving DecidableEq, Repr

/-- `Default::default()` for `Timestamp`: all fields at their empty state. -/
def Timestamp.default : Timestamp :=
  { seconds := 0, nanos := 0
    unknown_fields := UnknownFields.INIT, cached_size := CachedSize.INIT }

/-- `Timestamp::UNIX_EPOCH`: the constant `{seconds: 0, nanos: 0}` with
    bookkeeping fields at `INIT`. -/
def Timestamp.UNIX_EPOCH : Timestamp :=
  { seconds := 0, nanos := 0
    unknown_fields := UnknownFields.INIT, cached_size := CachedSize.INIT }

/-- The encoder, `impl From<SystemTime> for Timestamp`.

`time` is the instant's signed offset from the epoch in nanoseconds.
`time.duration_since(UNIX_EPOCH)` yields `Ok(since_epoch)` when
`time ≥ epoch` and `Err(e)` with `e.duration() = epoch - time` otherwise.

* `Ok` branch: `seconds = since_epoch.as_secs() as i64`,
  `nanos = since_epoch.subsec_nanos() as i32` (the `u32` sub-second count is
  below `10^9 < 2^31`, so that cast is the identity).
* `Err` branch: `seconds = -(before_epoch.as_secs() as i64)
  - (before_epoch.subsec_nanos() != 0) as i64` (an `i64` computation,
  wrapped), and
  `nanos = (1_000_000_000 - before_epoch.subsec_nanos() as i32)
  % 1_000_000_000` (an `i32` computation on values in `[0, 10^9]`, where
  Rust's `%` agrees with `Int.emod`).

Remaining fields come from `..Default::default()`. -/
def timestampFromSystemTime (time : Int) : Timestamp :=
  if 0 ≤ time then
    let since_epoch := time.toNat
    { seconds := i64OfU64 (since_epoch / 1000000000 % twoPow64)
      nanos := ((since_epoch % 1000000000 : Nat) : Int)
      unknown_fields := Timestamp.default.unknown_fields
      cached_size := Timestamp.default.cached_size }
  else
    let before_epoch := (-time).toNat
    { seconds := i64Wrap (-(i64OfU64 (before_epoch / 1000000000 % twoPow64))
        - (if before_epoch % 1000000000 ≠ 0 then 1 else 0))
      nanos := (1000000000 - ((before_epoch % 1000000000 : Nat) : Int))
        % 1000000000
      unknown_fields := Timestamp.default.unknown_fields
      cached_size := Timestamp.default.cached_size }

/-- The decoder, `impl Into<SystemTime> for Timestamp`.

* `seconds ≥ 0` branch:
  `UNIX_EPOCH + (Duration::from_secs(seconds as u64)
  + Duration::from_nanos(nanos as u64))`.  The `Duration` addition cannot
  overflow its `u64` second count for `i64`-ranged inputs.
* `seconds < 0` branch:
  `UNIX_EPOCH - (Duration::from_secs(-seconds as u64)
  - Duration::from_nanos(nanos as u64))`, where `-seconds` is a wrapping
  `i64` negation and the `Duration` subtraction panics on underflow —
  modelled as `none`. -/
def systemTimeFromTimestamp (ts : Timestamp) : Option Int :=
  if 0 ≤ ts.seconds then
    let duration := u64OfI64 ts.seconds * 1000000000 + u64OfI32 ts.nanos
    some ((duration : Nat) : Int)
  else
    let secsDuration := u64OfI64 (i64Wrap (-ts.seconds)) * 1000000000
    let nanosDuration := u64OfI32 ts.nanos
    if nanosDuration ≤ secsDuration then
      some (-(((secsDuration - nanosDuration : Nat) : Int)))
    else
      none

/-! ## Sanity checks against the source's own unit tests -/

example : timestampFromSystemTime 0 = Timestamp.UNIX_EPOCH := by decide
example : timestampFromSystemTime 200000000
    = { seconds := 0, nanos := 200000000
        unknown_fields := UnknownFields.INIT, cached_size := CachedSize.INIT } := by
  decide
example : timestampFromSystemTime 3200000000
    = { seconds := 3, nanos := 200000000
        unknown_fields := UnknownFields.INIT, cached_size := CachedSize.INIT } := by
  decide
example : timestampFromSystemTime (-200000000)
    = { seconds := -1, nanos := 800000000
        unknown_fields := UnknownFields.INIT, cached_size := CachedSize.INIT } := by
  decide
example : timestampFromSystemTime (-3200000000)
    = { seconds := -4, nanos := 800000000
        unknown_fields := UnknownFields.INIT, cached_size := CachedSize.INIT } := by
  decide
example : systemTimeFromTimestamp (timestampFromSystemTime (-200000000))
    = some (-200000000) := by decide
example : systemTimeFromTimestamp (timestampFromSystemTime (-3200000000))
    = some (-3200000000) := by decide

/-! ## Characterization lemmas -/

/-- On the whole range of instants the Unix platform clock can represent,
the encoder produces the floor decomposition of the instant: `seconds` is
the floor of `t / 10^9` and `nanos` is the non-negative remainder.  (At the
extreme `t = -2^63 * 10^9` the `i64` negation wraps, but the wrapped value
is exactly the floor `-2^63`.) -/
theorem timestampFromSystemTime_eq (t : Int)
    (hlo : -9223372036854775808 * 1000000000 ≤ t)
    (hhi : t < 9223372036854775808 * 1000000000) :
    timestampFromSystemTime t
      = { seconds := t / 1000000000, nanos := t % 1000000000
          unknown_fields := UnknownFields.INIT, cached_size := CachedSize.INIT } := by
  unfold timestampFromSystemTime
  split
  · simp only [Timestamp.mk.injEq, i64OfU64, twoPow63, twoPow64, Timestamp.default,
      and_true]
    refine ⟨?_, ?_⟩
    · split_ifs <;> omega
    · omega
  · simp only [Timestamp.mk.injEq, i64OfU64, i64Wrap, twoPow63, twoPow64,
      Timestamp.default, and_true]
    refine ⟨?_, ?_⟩
    · split_ifs <;> omega
    · omega

/-- On every canonical `Timestamp` (`i64`-ranged `seconds`,
`nanos ∈ [0, 10^9)`), the decoder succeeds and produces the exact instant
`seconds·10^9 + nanos` nanoseconds from the epoch, whatever the
bookkeeping fields hold. -/
theorem systemTimeFromTimestamp_eq (s n : Int) (u : UnknownFields) (c : CachedSize)
    (hs1 : -9223372036854775808 ≤ s) (hs2 : s < 9223372036854775808)
    (hn1 : 0 ≤ n) (hn2 : n < 1000000000) :
    systemTimeFromTimestamp
        { seconds := s, nanos := n, unknown_fields := u, cached_size := c }
      = some (s * 1000000000 + n) := by
  unfold systemTimeFromTimestamp
  simp only [u64OfI64, u64OfI32, i64Wrap, twoPow63, twoPow64]
  split
  · simp only [Option.some.injEq]
    omega
  · split
    · simp only [Option.some.injEq]
      omega
    · exfalso
      omega

/-! ## The claims -/

/-- **C1.** For every `SystemTime` value `t` representable by the platform
clock (an offset within the Unix `timespec` range), converting `t` to a
`Timestamp` with the encoder and then converting that `Timestamp` back with
the decoder yields exactly `t`. -/
theorem decode_encode_roundtrip (t : Int)
    (hlo : -9223372036854775808 * 1000000000 ≤ t)
    (hhi : t < 9223372036854775808 * 1000000000) :
    systemTimeFromTimestamp (timestampFromSystemTime t) = some t := by
  rw [timestampFromSystemTime_eq t hlo hhi,
    systemTimeFromTimestamp_eq (t / 1000000000) (t % 1000000000)
      UnknownFields.INIT CachedSize.INIT (by omega) (by omega) (by omega) (by omega)]
  simp only [Option.some.injEq]
  omega

/-- Witness for `decode_encode_roundtrip` at `t = epoch - 3200ms`. -/
theorem decode_encode_roundtrip_witness :
    systemTimeFromTimestamp (timestampFromSystemTime (-3200000000))
      = some (-3200000000) :=
  decode_encode_roundtrip (-3200000000) (by decide) (by decide)

/-- **C2.** For every canonical `Timestamp` `{s, n}` with
`0 ≤ n < 1_000_000_000` (and default bookkeeping fields), decoding it to a
`SystemTime` and re-encoding that `SystemTime` yields exactly `{s, n}`. -/
theorem encode_decode_roundtrip (s n : Int)
    (hs1 : -9223372036854775808 ≤ s) (hs2 : s < 9223372036854775808)
    (hn1 : 0 ≤ n) (hn2 : n < 1000000000) :
    Option.map timestampFromSystemTime
        (systemTimeFromTimestamp
          { seconds := s, nanos := n
            unknown_fields := UnknownFields.INIT, cached_size := CachedSize.INIT })
      = some { seconds := s, nanos := n
               unknown_fields := UnknownFields.INIT, cached_size := CachedSize.INIT } := by
  rw [systemTimeFromTimestamp_eq s n _ _ hs1 hs2 hn1 hn2]
  simp only [Option.map_some']
  rw [timestampFromSystemTime_eq (s * 1000000000 + n) (by omega) (by omega)]
  simp only [Option.some.injEq, Timestamp.mk.injEq, and_true]
  refine ⟨?_, ?_⟩ <;> omega

/-- Witness for `encode_decode_roundtrip` at `{seconds: -4, nanos: 8e8}`. -/
theorem encode_decode_roundtrip_witness :
    Option.map timestampFromSystemTime
        (systemTimeFromTimestamp
          { seconds := -4, nanos := 800000000
            unknown_fields := UnknownFields.INIT, cached_size := CachedSize.INIT })
      = some { seconds := -4, nanos := 800000000
               unknown_fields := UnknownFields.INIT, cached_size := CachedSize.INIT } :=
  encode_decode_roundtrip (-4) 800000000 (by decide) (by decide) (by decide) (by decide)

/-- **C3.** For every `SystemTime` input, the `Timestamp` produced by the
encoder satisfies `0 ≤ nanos < 1_000_000_000` — whether the resulting
`seconds` field is non-negative or negative (the statement quantifies over
every instant, on either side of the epoch). -/
theorem encoder_nanos_range (t : Int) :
    0 ≤ (timestampFromSystemTime t).nanos ∧
      (timestampFromSystemTime t).nanos < 1000000000 := by
  unfold timestampFromSystemTime
  split <;> dsimp only <;> omega

/-- **C4.** For every `SystemTime` `t` strictly before the epoch, writing
`d = epoch - t` with whole seconds `w = d / 10^9` and sub-second nanoseconds
`f = d % 10^9`, the encoder produces `seconds = -w`, `nanos = 0` when
`f = 0`, and `seconds = -w - 1`, `nanos = 10^9 - f` when `f ≠ 0`. -/
theorem encoder_negative_instants (t : Int)
    (hlo : -9223372036854775808 * 1000000000 ≤ t) (ht : t < 0) :
    ((-t) % 1000000000 = 0 →
      (timestampFromSystemTime t).seconds = -((-t) / 1000000000) ∧
      (timestampFromSystemTime t).nanos = 0) ∧
    ((-t) % 1000000000 ≠ 0 →
      (timestampFromSystemTime t).seconds = -((-t) / 1000000000) - 1 ∧
      (timestampFromSystemTime t).nanos = 1000000000 - (-t) % 1000000000) := by
  rw [timestampFromSystemTime_eq t hlo (by omega)]
  dsimp only
  refine ⟨fun hf => ⟨?_, ?_⟩, fun hf => ⟨?_, ?_⟩⟩ <;> omega

/-- Witness for `encoder_negative_instants` at `t = epoch - 200ms`: the
encoder yields `{seconds: -1, nanos: 800_000_000}`. -/
theorem encoder_negative_instants_witness :
    (timestampFromSystemTime (-200000000)).seconds = -1 ∧
    (timestampFromSystemTime (-200000000)).nanos = 800000000 := by
  have h := (encoder_negative_instants (-200000000) (by decide) (by decide)).2 (by decide)
  exact ⟨h.1.trans (by decide), h.2.trans (by decide)⟩

/-- **C5** (settled as a code bug).  The decoder performs no validation of
the `nanos` field at all: decoding `{seconds: 0, nanos: 1_000_000_000}`
silently produces the instant one second after the epoch, and decoding
`{seconds: 0, nanos: -1}` silently sign-extends `-1` to `2^64 - 1` and
produces an instant about 584 years after the epoch — neither fails, even
though the implementation's own doc comment promises a panic on a malformed
`Timestamp`. -/
theorem decoder_accepts_malformed_nanos :
    systemTimeFromTimestamp
        { seconds := 0, nanos := 1000000000
          unknown_fields := UnknownFields.INIT, cached_size := CachedSize.INIT }
      = some 1000000000 ∧
    systemTimeFromTimestamp
        { seconds := 0, nanos := -1
          unknown_fields := UnknownFields.INIT, cached_size := CachedSize.INIT }
      = some 18446744073709551615 := by
  decide

/-- **C6** (settled as a code bug).  The encoder contains no overflow check:
for an instant whose whole-second offset `2^63` does not fit in `i64`, the
`as i64` cast silently wraps the seconds value to `-2^63`, even though the
implementation's own doc comment promises a panic when the `SystemTime` is
outside the `Timestamp` range. -/
theorem encoder_wraps_out_of_range_seconds :
    timestampFromSystemTime (9223372036854775808 * 1000000000)
      = { seconds := -9223372036854775808, nanos := 0
          unknown_fields := UnknownFields.INIT, cached_size := CachedSize.INIT } := by
  decide

/-- **C7.** Encoding the epoch instant yields `{seconds: 0, nanos: 0}`
(exactly the `Timestamp::UNIX_EPOCH` constant), and decoding
`Timestamp::UNIX_EPOCH` yields the epoch instant. -/
theorem epoch_boundary :
    timestampFromSystemTime 0 = Timestamp.UNIX_EPOCH ∧
    systemTimeFromTimestamp Timestamp.UNIX_EPOCH = some 0 := by
  decide

/-- **C8.** For every `Timestamp` with `i64`-ranged `seconds < 0` and
`0 ≤ nanos < 10^9`, the minuend `Duration::from_secs(-seconds as u64)` of
the decoder's unsigned-duration subtraction is at least the subtrahend
`Duration::from_nanos(nanos as u64)`, so the subtraction never underflows
and the decoder's panic branch (`none`) is unreachable. -/
theorem decoder_subtraction_no_underflow (s n : Int)
    (u : UnknownFields) (c : CachedSize)
    (hs1 : -9223372036854775808 ≤ s) (hs2 : s < 0)
    (hn1 : 0 ≤ n) (hn2 : n < 1000000000) :
    u64OfI32 n ≤ u64OfI64 (i64Wrap (-s)) * 1000000000 ∧
    systemTimeFromTimestamp
        { seconds := s, nanos := n, unknown_fields := u, cached_size := c }
      ≠ none := by
  constructor
  · unfold u64OfI32 u64OfI64 i64Wrap twoPow63 twoPow64
    omega
  · rw [systemTimeFromTimestamp_eq s n u c hs1 (by omega) hn1 hn2]
    simp

/-- Witness for `decoder_subtraction_no_underflow` at
`{seconds: -1, nanos: 5e8}`. -/
theorem decoder_subtraction_no_underflow_witness :
    u64OfI32 500000000 ≤ u64OfI64 (i64Wrap (-(-1 : Int))) * 1000000000 ∧
    systemTimeFromTimestamp
        { seconds := -1, nanos := 500000000
          unknown_fields := UnknownFields.INIT, cached_size := CachedSize.INIT }
      ≠ none :=
  decoder_subtraction_no_underflow (-1) 500000000 UnknownFields.INIT CachedSize.INIT
    (by decide) (by decide) (by decide) (by decide)

/-- **C9.** Every `Timestamp` constructed by the encoder, and the
`Timestamp::UNIX_EPOCH` constant, carries its bookkeeping fields
(unknown-field storage and cached encoded size) at their default/empty
state, and the decoder's result never depends on those fields. -/
theorem conversion_core_bookkeeping (t s n : Int)
    (u u2 : UnknownFields) (c c2 : CachedSize) :
    (timestampFromSystemTime t).unknown_fields = UnknownFields.INIT ∧
    (timestampFromSystemTime t).cached_size = CachedSize.INIT ∧
    Timestamp.UNIX_EPOCH.unknown_fields = UnknownFields.INIT ∧
    Timestamp.UNIX_EPOCH.cached_size = CachedSize.INIT ∧
    systemTimeFromTimestamp
        { seconds := s, nanos := n, unknown_fields := u, cached_size := c }
      = systemTimeFromTimestamp
        { seconds := s, nanos := n, unknown_fields := u2, cached_size := c2 } := by
  refine ⟨?_, ?_, rfl, rfl, rfl⟩ <;>
    (unfold timestampFromSystemTime; split <;> rfl)

/-- **C10** counterexample.  At `{seconds: i64::MIN, nanos: 0}` the decoder
produces exactly the correct instant `i64::MIN · 10^9` nanoseconds before
the epoch, refuting the claim that no correct instant is produced for
`seconds = i64::MIN`. -/
theorem decoder_i64min_counterexample :
    systemTimeFromTimestamp
        { seconds := -9223372036854775808, nanos := 0
          unknown_fields := UnknownFields.INIT, cached_size := CachedSize.INIT }
      = some (-9223372036854775808 * 1000000000) := by
  decide

/-- **C10** (amended).  For `{seconds: i64::MIN, nanos: n}` with canonical
`n`, the decoder's negation `-seconds` indeed overflows `i64` — under
wrapping semantics it yields `i64::MIN` again, not `2^63` — but the
subsequent `as u64` reinterpretation maps that wrapped value to the true
magnitude `2^63`, so the decoder still produces the correct instant
`i64::MIN · 10^9 + n` (with debug overflow checks the negation would panic
instead; no incorrect instant is ever produced). -/
theorem decoder_i64min_wrapping (n : Int) (hn1 : 0 ≤ n) (hn2 : n < 1000000000) :
    i64Wrap (-(-9223372036854775808 : Int)) = -9223372036854775808 ∧
    systemTimeFromTimestamp
        { seconds := -9223372036854775808, nanos := n
          unknown_fields := UnknownFields.INIT, cached_size := CachedSize.INIT }
      = some (-9223372036854775808 * 1000000000 + n) := by
  refine ⟨by decide, ?_⟩
  rw [systemTimeFromTimestamp_eq (-9223372036854775808) n
    UnknownFields.INIT CachedSize.INIT (by decide) (by decide) hn1 hn2]

/-- Witness for `decoder_i64min_wrapping` at `n = 5e8`. -/
theorem decoder_i64min_wrapping_witness :
    i64Wrap (-(-9223372036854775808 : Int)) = -9223372036854775808 ∧
    systemTimeFromTimestamp
        { seconds := -9223372036854775808, nanos := 500000000
          unknown_fields := UnknownFields.INIT, cached_size := CachedSize.INIT }
      = some (-9223372036854775808 * 1000000000 + 500000000) :=
  decoder_i64min_wrapping 500000000 (by decide) (by decide)
